import Mathlib

/-!
Shallow embedding of the Echo-Guard noise-mapping core
(`src/Server/simple_noise_processor.py`, `src/Server/mqtt_broker_server.py`,
`src/Server/mqtt_processor.py`, `src/Server/fixed_websocket_server.py`),
together with theorems settling the frozen claims about it.

Python floats are modelled as rationals; `np.cos(np.radians x)` is modelled
as an abstract parameter `cosDeg : ℚ → ℚ` of the interpolation engine.
-/

/-- A sensor point as consumed by `SimpleNoiseProcessor.create_interpolated_grid`:
the `lat`, `lon`, `db` fields of one element of the `sensors` payload list. -/
structure SensorPoint where
  lat : ℚ
  lon : ℚ
  db : ℚ
deriving DecidableEq, Repr

/-- The epsilon added to the squared distance in the IDW weight
(`1e-10` in `simple_noise_processor.py`, line 167). -/
def epsIDW : ℚ := 1 / 10 ^ 10

/-- Squared distance of the grid-cell centre `(lat, lon)` to sensor `s`,
with the longitude delta scaled by `cos(radians lat)` of the cell
(`simple_noise_processor.py`, lines 155-158). -/
def distance_sq (cosDeg : ℚ → ℚ) (lat lon : ℚ) (s : SensorPoint) : ℚ :=
  (lat - s.lat) ^ 2 + ((lon - s.lon) * cosDeg lat) ^ 2

/-- The spec's `weight_k = 1 / (distance_k^2 + eps)` for sensor `s` seen
from the cell centre `(lat, lon)`. -/
def idwWeight (cosDeg : ℚ → ℚ) (lat lon : ℚ) (s : SensorPoint) : ℚ :=
  1 / (distance_sq cosDeg lat lon s + epsIDW)

/-- The inner IDW accumulation loop over the sensor list
(`simple_noise_processor.py`, lines 153-169): threads the running
`weighted_sum` and `weight_sum`; on an exact positional match
(`distance_sq == 0`) it short-circuits with that sensor's value and
weight 1 (the `break`). -/
def idwLoop (cosDeg : ℚ → ℚ) (lat lon : ℚ) :
    List SensorPoint → ℚ → ℚ → ℚ × ℚ
  | [], ws, w => (ws, w)
  | s :: rest, ws, w =>
    let d := distance_sq cosDeg lat lon s
    if d = 0 then (s.db, 1)
    else idwLoop cosDeg lat lon rest (ws + s.db * (1 / (d + epsIDW)))
      (w + 1 / (d + epsIDW))

/-- One grid cell's computation (`simple_noise_processor.py`, lines 149-177):
the pair of the appended value (`weighted_sum / weight_sum` when
`weight_sum > 0`, the fallback `0` otherwise) and the final `weight_sum`. -/
def cellCompute (cosDeg : ℚ → ℚ) (lat lon : ℚ) (sensors : List SensorPoint) :
    ℚ × ℚ :=
  let p := idwLoop cosDeg lat lon sensors 0 0
  (if p.2 > 0 then p.1 / p.2 else 0, p.2)

/-- Reference IDW cell value following the spec's words: if some sensor's
scaled squared distance is exactly zero, the value is that (first such)
sensor's `level_db`; otherwise `Σ(weight_k * level_k) / Σ(weight_k)` with
`weight_k = 1 / (distance_k^2 + eps)`. -/
def cellValueSpec (cosDeg : ℚ → ℚ) (lat lon : ℚ)
    (sensors : List SensorPoint) : ℚ :=
  match sensors.find? (fun s => decide (distance_sq cosDeg lat lon s = 0)) with
  | some s => s.db
  | none =>
      ((sensors.map (fun s => s.db * idwWeight cosDeg lat lon s)).sum)
        / ((sensors.map (idwWeight cosDeg lat lon)).sum)

/-- Python's `min` over a list of rationals (junk value `0` on `[]`;
every use below is on a nonempty list). -/
def pyMin : List ℚ → ℚ
  | [] => 0
  | x :: xs => xs.foldl min x

/-- Python's `max` over a list of rationals (junk value `0` on `[]`). -/
def pyMax : List ℚ → ℚ
  | [] => 0
  | x :: xs => xs.foldl max x

/-- The latitudes of the input sensors (`lats`, line 105). -/
def latsOf (sensors : List SensorPoint) : List ℚ := sensors.map (·.lat)

/-- The longitudes of the input sensors (`lons`, line 106). -/
def lonsOf (sensors : List SensorPoint) : List ℚ := sensors.map (·.lon)

/-- `max_range` (line 116): the larger of the unpadded latitude span and
longitude span of the input sensors. -/
def max_range (sensors : List SensorPoint) : ℚ :=
  max (pyMax (latsOf sensors) - pyMin (latsOf sensors))
    (pyMax (lonsOf sensors) - pyMin (lonsOf sensors))

/-- `padding` (line 117): 2% of `max_range`, with a floor of 0.001 degrees. -/
def gridPadding (sensors : List SensorPoint) : ℚ :=
  max (max_range sensors * (2 / 100)) (1 / 1000)

/-- Padded `min_lat` (line 119). -/
def min_lat_p (sensors : List SensorPoint) : ℚ :=
  pyMin (latsOf sensors) - gridPadding sensors

/-- Padded `max_lat` (line 120). -/
def max_lat_p (sensors : List SensorPoint) : ℚ :=
  pyMax (latsOf sensors) + gridPadding sensors

/-- Padded `min_lon` (line 121). -/
def min_lon_p (sensors : List SensorPoint) : ℚ :=
  pyMin (lonsOf sensors) - gridPadding sensors

/-- Padded `max_lon` (line 122). -/
def max_lon_p (sensors : List SensorPoint) : ℚ :=
  pyMax (lonsOf sensors) + gridPadding sensors

/-- `grid_res` (lines 124-130): adaptive square grid side, chosen from the
unpadded `max_range`. -/
def grid_res (sensors : List SensorPoint) : ℕ :=
  if max_range sensors < 1 then 60 else if max_range sensors < 5 then 40 else 30

/-- `lat_step` (line 135). -/
def lat_step (sensors : List SensorPoint) : ℚ :=
  (max_lat_p sensors - min_lat_p sensors) / ((grid_res sensors : ℚ) - 1)

/-- `lon_step` (line 136). -/
def lon_step (sensors : List SensorPoint) : ℚ :=
  (max_lon_p sensors - min_lon_p sensors) / ((grid_res sensors : ℚ) - 1)

/-- Cell-centre latitude of row `i` (line 146, north to south). -/
def cellLat (sensors : List SensorPoint) (i : ℕ) : ℚ :=
  max_lat_p sensors - i * lat_step sensors

/-- Cell-centre longitude of column `j` (line 147, west to east). -/
def cellLon (sensors : List SensorPoint) (j : ℕ) : ℚ :=
  min_lon_p sensors + j * lon_step sensors

/-- The nested cell loop (lines 143-177), row-major: for each row `i` and
column `j`, the `(value, weight_sum)` pair of that cell. -/
def gridCells (cosDeg : ℚ → ℚ) (sensors : List SensorPoint) :
    List (ℚ × ℚ) :=
  (List.range (grid_res sensors)).flatMap fun i =>
    (List.range (grid_res sensors)).map fun j =>
      cellCompute cosDeg (cellLat sensors i) (cellLon sensors j) sensors

/-- The `interpolated_grid` result structure (lines 180-192):
`min_db`/`max_db` start from Python's `inf`/`-inf`, modelled as
`⊤ : WithTop ℚ` and `⊥ : WithBot ℚ`, and are updated only in the
`weight_sum > 0` branch, exactly as in the source. -/
structure InterpolatedGrid where
  bounds : (ℚ × ℚ) × (ℚ × ℚ)
  grid_size : ℕ × ℕ
  values : List ℚ
  min_db : WithTop ℚ
  max_db : WithBot ℚ
deriving DecidableEq

/-- `SimpleNoiseProcessor.create_interpolated_grid` (lines 96-199): `none`
for fewer than 2 sensors, otherwise the padded-bounds, adaptive-resolution
IDW grid. -/
def create_interpolated_grid (cosDeg : ℚ → ℚ)
    (sensors : List SensorPoint) : Option InterpolatedGrid :=
  if sensors.length < 2 then none
  else
    some
      { bounds := ((min_lat_p sensors, min_lon_p sensors),
          (max_lat_p sensors, max_lon_p sensors))
        grid_size := (grid_res sensors, grid_res sensors)
        values := (gridCells cosDeg sensors).map Prod.fst
        min_db := (gridCells cosDeg sensors).foldl
          (fun m c => if c.2 > 0 then min m (↑c.1) else m) (⊤ : WithTop ℚ)
        max_db := (gridCells cosDeg sensors).foldl
          (fun m c => if c.2 > 0 then max m (↑c.1) else m) (⊥ : WithBot ℚ) }

/-- The grid's values list recomputed with the spec's reference per-cell IDW
definition `cellValueSpec` in place of the source's loop. -/
def gridValuesSpec (cosDeg : ℚ → ℚ) (sensors : List SensorPoint) : List ℚ :=
  (List.range (grid_res sensors)).flatMap fun i =>
    (List.range (grid_res sensors)).map fun j =>
      cellValueSpec cosDeg (cellLat sensors i) (cellLon sensors j) sensors

/-- The resolution rule exactly as claim C2 words it: chosen from the span
of the PADDED bounding box. -/
def grid_res_claim (paddedSpan : ℚ) : ℕ :=
  if paddedSpan < 1 then 60 else if paddedSpan < 5 then 40 else 30

/-- The span of the padded bounding box (the larger of its padded latitude
span and padded longitude span). -/
def paddedSpan (sensors : List SensorPoint) : ℚ :=
  max (max_lat_p sensors - min_lat_p sensors)
    (max_lon_p sensors - min_lon_p sensors)

/-- An inbound sensor payload after field validation
(`mqtt_broker_server.py`, lines 118-124): the five required fields. -/
structure SensorPayload where
  device_id : String
  lat : ℚ
  lon : ℚ
  db : ℚ
  timestamp : ℤ
deriving DecidableEq, Repr

/-- A stored sensor entry (`mqtt_broker_server.py`, lines 127-135): the
payload fields plus the store-assigned `received_at` (milliseconds) and the
topic the reading arrived on. -/
structure StoredReading where
  device_id : String
  lat : ℚ
  lon : ℚ
  db : ℚ
  timestamp : ℤ
  received_at : ℚ
  topic : String
deriving DecidableEq, Repr

/-- The `sensor_data` dict, keyed by `device_id`, modelled as an
insertion-ordered association list (Python dict semantics). -/
abbrev SensorStore := List (String × StoredReading)

/-- Python dict assignment `d[k] = v`: replace in place if the key is
present, else append at the end. -/
def dictInsert {α : Type} (k : String) (v : α) :
    List (String × α) → List (String × α)
  | [] => [(k, v)]
  | (k', v') :: rest =>
    if k' = k then (k, v) :: rest else (k', v') :: dictInsert k v rest

/-- The entry built by `handle_sensor_data` (lines 127-135) for a validated
payload received on `topic` at time `now_ms`. -/
def storeReading (p : SensorPayload) (topic : String) (now_ms : ℚ) :
    StoredReading :=
  { device_id := p.device_id, lat := p.lat, lon := p.lon, db := p.db
    timestamp := p.timestamp, received_at := now_ms, topic := topic }

/-- The store update performed by `handle_sensor_data` (line 127):
`self.sensor_data[device_id] = {...}`. -/
def handle_sensor_data_store (store : SensorStore) (p : SensorPayload)
    (topic : String) (now_ms : ℚ) : SensorStore :=
  dictInsert p.device_id (storeReading p topic now_ms) store

/-- A sequence of accepted ingestion events (payload, topic, receive time)
applied to a store in arrival order. -/
def insert_all (store : SensorStore)
    (events : List (SensorPayload × String × ℚ)) : SensorStore :=
  events.foldl (fun st e => handle_sensor_data_store st e.1 e.2.1 e.2.2) store

/-- `NoiseDataProcessor.cleanup_old_data` (`mqtt_processor.py`, lines
96-108): drops every entry whose age `(now_ms - received_at) / 1000`
exceeds `maxAge` seconds. The Python function returns `None`, modelled as
the `Option ℕ` component being `none`. -/
def cleanup_old_data (now_ms maxAge : ℚ) (store : SensorStore) :
    SensorStore × Option ℕ :=
  (store.filter (fun e => !decide ((now_ms - e.2.received_at) / 1000 > maxAge)),
    none)

/-- The recompute debounce of `handle_sensor_data`
(`mqtt_broker_server.py`, lines 139-143): fire iff strictly more than
`interval` seconds have elapsed since `last`; on firing, `last` is reset to
`now`. Returns (fired, new last_interpolation). -/
def sched_step (last now interval : ℚ) : Bool × ℚ :=
  if now - last > interval then (true, now) else (false, last)

/-- The debounce run over a sequence of event times, threading
`last_interpolation` (initially `0`, as in `__init__` line 62). -/
def sched_run (interval : ℚ) : ℚ → List ℚ → List Bool
  | _, [] => []
  | last, t :: ts =>
    let r := sched_step last t interval
    r.1 :: sched_run interval r.2 ts

/-- A message delivered to a WebSocket subscriber: either the full
`sensor_data` snapshot sent on registration (`send_current_data_to_client`)
or a forwarded incremental MQTT message (`broadcast_to_websocket_clients`,
topic retained, payload abstracted). -/
inductive BrokerMessage where
  | sensor_snapshot : List StoredReading → BrokerMessage
  | mqtt_message : String → BrokerMessage
deriving DecidableEq

/-- `MQTTBrokerServer.send_current_data_to_client` (lines 223-237): sends
the list of current sensor entries only when `sensor_data` is nonempty
(`if self.sensor_data:`); otherwise sends nothing. -/
def send_current_data_to_client (store : SensorStore) :
    Option (List StoredReading) :=
  match store with
  | [] => none
  | _ => some (store.map Prod.snd)

/-- The initial messages a newly registered subscriber receives
(`websocket_handler`, lines 168-181: the client is added, then
`send_current_data_to_client` runs before any other traffic). -/
def registration_messages (store : SensorStore) : List BrokerMessage :=
  match send_current_data_to_client store with
  | some payload => [BrokerMessage.sensor_snapshot payload]
  | none => []

/-- Everything a subscriber registered at store state `store` receives: its
registration messages followed by whatever incremental messages are
broadcast afterwards. -/
def messages_to_new_subscriber (store : SensorStore)
    (incr : List BrokerMessage) : List BrokerMessage :=
  registration_messages store ++ incr

/-- The delivery loop of `broadcast_to_websocket_clients`
(`mqtt_broker_server.py`, lines 252-260): each registered client is
attempted in turn; `ok c` tells whether that client's `send` succeeds.
Returns (clients that received the message, clients whose send failed). -/
def broadcastLoop (ok : ℕ → Bool) : List ℕ → List ℕ × List ℕ
  | [] => ([], [])
  | c :: rest =>
    let r := broadcastLoop ok rest
    if ok c then (c :: r.1, r.2) else (r.1, c :: r.2)

/-- `MQTTBrokerServer.broadcast_to_websocket_clients` (lines 239-266):
attempts delivery to every registered client, then discards every client
whose send failed from the registry. Returns (clients that received the
message, the new registry). -/
def broadcast_to_clients (clients : List ℕ) (ok : ℕ → Bool) :
    List ℕ × List ℕ :=
  let r := broadcastLoop ok clients
  (r.1, clients.filter (fun c => !(r.2.contains c)))

/-! ### Helper lemmas: list minima and maxima -/

lemma foldl_min_le_init (xs : List ℚ) : ∀ x : ℚ, xs.foldl min x ≤ x := by
  induction xs with
  | nil => intro x; exact le_refl x
  | cons y ys ih =>
    intro x
    exact le_trans (ih (min x y)) (min_le_left x y)

lemma foldl_min_le_mem (xs : List ℚ) :
    ∀ x a : ℚ, a ∈ xs → xs.foldl min x ≤ a := by
  induction xs with
  | nil => intro x a ha; cases ha
  | cons y ys ih =>
    intro x a ha
    rcases List.mem_cons.mp ha with h | h
    · subst h
      exact le_trans (foldl_min_le_init ys (min x a)) (min_le_right x a)
    · exact ih (min x y) a h

lemma foldl_min_mem (xs : List ℚ) : ∀ x : ℚ, xs.foldl min x ∈ x :: xs := by
  induction xs with
  | nil => intro x; simp
  | cons y ys ih =>
    intro x
    have h := ih (min x y)
    rw [List.foldl_cons]
    rcases List.mem_cons.mp h with h | h
    · rw [h]
      rcases min_choice x y with hc | hc <;> rw [hc] <;> simp
    · exact List.mem_cons.mpr (Or.inr (List.mem_cons.mpr (Or.inr h)))

lemma le_foldl_max_init (xs : List ℚ) : ∀ x : ℚ, x ≤ xs.foldl max x := by
  induction xs with
  | nil => intro x; exact le_refl x
  | cons y ys ih =>
    intro x
    exact le_trans (le_max_left x y) (ih (max x y))

lemma mem_le_foldl_max (xs : List ℚ) :
    ∀ x a : ℚ, a ∈ xs → a ≤ xs.foldl max x := by
  induction xs with
  | nil => intro x a ha; cases ha
  | cons y ys ih =>
    intro x a ha
    rcases List.mem_cons.mp ha with h | h
    · subst h
      rw [List.foldl_cons]
      exact le_trans (le_max_right x a) (le_foldl_max_init ys (max x a))
    · exact ih (max x y) a h

lemma foldl_max_mem (xs : List ℚ) : ∀ x : ℚ, xs.foldl max x ∈ x :: xs := by
  induction xs with
  | nil => intro x; simp
  | cons y ys ih =>
    intro x
    have h := ih (max x y)
    rw [List.foldl_cons]
    rcases List.mem_cons.mp h with h | h
    · rw [h]
      rcases max_choice x y with hc | hc <;> rw [hc] <;> simp
    · exact List.mem_cons.mpr (Or.inr (List.mem_cons.mpr (Or.inr h)))

lemma pyMin_le {l : List ℚ} (h : l ≠ []) : ∀ a ∈ l, pyMin l ≤ a := by
  cases l with
  | nil => exact absurd rfl h
  | cons x xs =>
    intro a ha
    rcases List.mem_cons.mp ha with h' | h'
    · subst h'; exact foldl_min_le_init xs a
    · exact foldl_min_le_mem xs x a h'

lemma pyMin_mem {l : List ℚ} (h : l ≠ []) : pyMin l ∈ l := by
  cases l with
  | nil => exact absurd rfl h
  | cons x xs => exact foldl_min_mem xs x

lemma le_pyMax {l : List ℚ} (h : l ≠ []) : ∀ a ∈ l, a ≤ pyMax l := by
  cases l with
  | nil => exact absurd rfl h
  | cons x xs =>
    intro a ha
    rcases List.mem_cons.mp ha with h' | h'
    · subst h'; exact le_foldl_max_init xs a
    · exact mem_le_foldl_max xs x a h'

lemma pyMax_mem {l : List ℚ} (h : l ≠ []) : pyMax l ∈ l := by
  cases l with
  | nil => exact absurd rfl h
  | cons x xs => exact foldl_max_mem xs x

lemma pyMin_le_pyMax {l : List ℚ} (h : l ≠ []) : pyMin l ≤ pyMax l :=
  le_pyMax h _ (pyMin_mem h)

lemma pyMin_perm {l l' : List ℚ} (hp : l.Perm l') : pyMin l = pyMin l' := by
  cases l with
  | nil => rw [← hp.nil_eq]
  | cons x xs =>
    have hne : (x :: xs) ≠ ([] : List ℚ) := by simp
    have hne' : l' ≠ [] := by
      intro h; rw [h] at hp; exact hne hp.eq_nil
    exact le_antisymm
      (pyMin_le hne _ (hp.mem_iff.mpr (pyMin_mem hne')))
      (pyMin_le hne' _ (hp.mem_iff.mp (pyMin_mem hne)))

lemma pyMax_perm {l l' : List ℚ} (hp : l.Perm l') : pyMax l = pyMax l' := by
  cases l with
  | nil => rw [hp.nil_eq]
  | cons x xs =>
    have hne : (x :: xs) ≠ ([] : List ℚ) := by simp
    have hne' : l' ≠ [] := by
      intro h; rw [h] at hp; exact hne hp.eq_nil
    exact le_antisymm
      (le_pyMax hne' _ (hp.mem_iff.mp (pyMax_mem hne)))
      (le_pyMax hne _ (hp.mem_iff.mpr (pyMax_mem hne')))

/-! ### Helper lemmas: the IDW accumulation loop -/

lemma distance_sq_nonneg (cosDeg : ℚ → ℚ) (lat lon : ℚ) (s : SensorPoint) :
    0 ≤ distance_sq cosDeg lat lon s :=
  add_nonneg (sq_nonneg _) (sq_nonneg _)

lemma idwWeight_pos (cosDeg : ℚ → ℚ) (lat lon : ℚ) (s : SensorPoint) :
    0 < idwWeight cosDeg lat lon s := by
  unfold idwWeight
  rw [one_div_pos]
  have h := distance_sq_nonneg cosDeg lat lon s
  have : (0 : ℚ) < epsIDW := by norm_num [epsIDW]
  linarith

lemma weightSum_nonneg (cosDeg : ℚ → ℚ) (lat lon : ℚ)
    (l : List SensorPoint) :
    0 ≤ ((l.map (idwWeight cosDeg lat lon)).sum) :=
  List.sum_nonneg (by
    intro x hx
    rcases List.mem_map.mp hx with ⟨s, _, rfl⟩
    exact le_of_lt (idwWeight_pos cosDeg lat lon s))

lemma weightSum_pos (cosDeg : ℚ → ℚ) (lat lon : ℚ)
    {l : List SensorPoint} (h : l ≠ []) :
    0 < ((l.map (idwWeight cosDeg lat lon)).sum) := by
  cases l with
  | nil => exact absurd rfl h
  | cons s rest =>
    rw [List.map_cons, List.sum_cons]
    have h1 := idwWeight_pos cosDeg lat lon s
    have h2 := weightSum_nonneg cosDeg lat lon rest
    linarith

/-- Closed form of the IDW loop: either it short-circuits at the first
sensor at exactly zero scaled distance, or it adds the full weighted sums
to the accumulators. -/
lemma idwLoop_characterization (cosDeg : ℚ → ℚ) (lat lon : ℚ) :
    ∀ (l : List SensorPoint) (ws w : ℚ),
      idwLoop cosDeg lat lon l ws w =
        match l.find? (fun s => decide (distance_sq cosDeg lat lon s = 0)) with
        | some s => (s.db, 1)
        | none =>
            (ws + (l.map (fun s => s.db * idwWeight cosDeg lat lon s)).sum,
              w + (l.map (idwWeight cosDeg lat lon)).sum) := by
  intro l
  induction l with
  | nil => intro ws w; simp [idwLoop]
  | cons s rest ih =>
    intro ws w
    by_cases hd : distance_sq cosDeg lat lon s = 0
    · simp [idwLoop, hd, List.find?_cons]
    · rw [List.find?_cons_of_neg _ (by simp [hd])]
      rw [idwLoop]
      simp only [hd, if_false]
      rw [ih]
      cases hfind : rest.find?
          (fun s => decide (distance_sq cosDeg lat lon s = 0)) with
      | some s' => simp
      | none =>
        simp only [List.map_cons, List.sum_cons, idwWeight, Prod.mk.injEq]
        constructor <;> ring

/-- The source's per-cell loop value agrees with the spec's reference IDW
definition, unconditionally. -/
lemma cellCompute_fst_eq_spec (cosDeg : ℚ → ℚ) (lat lon : ℚ)
    (sensors : List SensorPoint) :
    (cellCompute cosDeg lat lon sensors).1 =
      cellValueSpec cosDeg lat lon sensors := by
  unfold cellCompute cellValueSpec
  rw [idwLoop_characterization]
  cases hfind : sensors.find?
      (fun s => decide (distance_sq cosDeg lat lon s = 0)) with
  | some s => norm_num
  | none =>
    simp only [zero_add]
    by_cases hw : 0 < (sensors.map (idwWeight cosDeg lat lon)).sum
    · simp only [hw, if_true]
    · have h0 : (sensors.map (idwWeight cosDeg lat lon)).sum = 0 :=
        le_antisymm (not_lt.mp hw) (weightSum_nonneg cosDeg lat lon sensors)
      simp only [hw, if_false]
      rw [h0, div_zero]

/-- The final weight sum of every cell computation over a nonempty sensor
list is strictly positive (so the `weight_sum > 0` branch is always the
one taken). -/
lemma cellCompute_weight_pos (cosDeg : ℚ → ℚ) (lat lon : ℚ)
    {sensors : List SensorPoint} (h : sensors ≠ []) :
    0 < (cellCompute cosDeg lat lon sensors).2 := by
  unfold cellCompute
  rw [idwLoop_characterization]
  cases hfind : sensors.find?
      (fun s => decide (distance_sq cosDeg lat lon s = 0)) with
  | some s => norm_num
  | none =>
    simp only [zero_add]
    exact weightSum_pos cosDeg lat lon h

/-- The grid's values list is exactly the spec-reference cell values at the
same cell centres. -/
lemma gridValues_eq_spec (cosDeg : ℚ → ℚ) (sensors : List SensorPoint) :
    (gridCells cosDeg sensors).map Prod.fst = gridValuesSpec cosDeg sensors := by
  unfold gridCells gridValuesSpec
  rw [List.map_flatMap]
  congr 1
  funext i
  rw [List.map_map]
  congr 1
  funext j
  exact cellCompute_fst_eq_spec cosDeg (cellLat sensors i) (cellLon sensors j)
    sensors

/-- The two-sensor list of the spec's midpoint example. -/
def demoSensors : List SensorPoint := [⟨0, 0, 40⟩, ⟨0, 1, 80⟩]

/-- C1: for every input list and every cell centre, the computed cell value
equals the reference IDW definition (exact-match short-circuit on a zero
scaled squared distance, otherwise `Σ(weight_k * level_k) / Σ(weight_k)`
with `weight_k = 1 / (distance_k^2 + 1e-10)` and power 2); every produced
grid's values list consists of exactly these reference values; and for two
sensors at `(0,0)` at 40dB and `(0,1)` at 80dB, the value at cell
coordinate `(0, 0.5)` is exactly 60dB. -/
theorem idw_cell_value_matches_reference :
    (∀ (cosDeg : ℚ → ℚ) (lat lon : ℚ) (sensors : List SensorPoint),
      (cellCompute cosDeg lat lon sensors).1 =
        cellValueSpec cosDeg lat lon sensors)
    ∧ (∀ (cosDeg : ℚ → ℚ) (sensors : List SensorPoint), 2 ≤ sensors.length →
      (create_interpolated_grid cosDeg sensors).map InterpolatedGrid.values
        = some (gridValuesSpec cosDeg sensors))
    ∧ (∀ cosDeg : ℚ → ℚ, cosDeg 0 = 1 →
      (cellCompute cosDeg 0 (1 / 2) demoSensors).1 = 60) := by
  refine ⟨cellCompute_fst_eq_spec, ?_, ?_⟩
  · intro cosDeg sensors h
    rw [create_interpolated_grid, if_neg (by omega)]
    simp only [Option.map_some']
    rw [gridValues_eq_spec]
  · intro cosDeg hc
    have h1 : distance_sq cosDeg 0 (1 / 2) ⟨0, 0, 40⟩ = 1 / 4 := by
      show ((0 : ℚ) - 0) ^ 2 + (((1 : ℚ) / 2 - 0) * cosDeg 0) ^ 2 = 1 / 4
      rw [hc]; norm_num
    have h2 : distance_sq cosDeg 0 (1 / 2) ⟨0, 1, 80⟩ = 1 / 4 := by
      show ((0 : ℚ) - 0) ^ 2 + (((1 : ℚ) / 2 - 1) * cosDeg 0) ^ 2 = 1 / 4
      rw [hc]; norm_num
    simp only [demoSensors, cellCompute, idwLoop, h1, h2]
    norm_num [epsIDW]

/-- C6: the grid's bounding box is the min/max of the readings' latitudes
and longitudes expanded on each side by
`max(2% of the larger of the lat-span and lon-span, 0.001)`, and the
resulting bounds have strictly positive width and height. -/
theorem grid_bounds_padded_minmax (cosDeg : ℚ → ℚ)
    (sensors : List SensorPoint) (h : 2 ≤ sensors.length) :
    ((create_interpolated_grid cosDeg sensors).map InterpolatedGrid.bounds =
      some ((pyMin (latsOf sensors) -
              max (max_range sensors * (2 / 100)) (1 / 1000),
            pyMin (lonsOf sensors) -
              max (max_range sensors * (2 / 100)) (1 / 1000)),
           (pyMax (latsOf sensors) +
              max (max_range sensors * (2 / 100)) (1 / 1000),
            pyMax (lonsOf sensors) +
              max (max_range sensors * (2 / 100)) (1 / 1000))))
    ∧ pyMin (latsOf sensors) - max (max_range sensors * (2 / 100)) (1 / 1000)
        < pyMax (latsOf sensors) + max (max_range sensors * (2 / 100)) (1 / 1000)
    ∧ pyMin (lonsOf sensors) - max (max_range sensors * (2 / 100)) (1 / 1000)
        < pyMax (lonsOf sensors) + max (max_range sensors * (2 / 100)) (1 / 1000)
    := by
  have hne : sensors ≠ [] := by
    intro hnil; rw [hnil] at h; simp at h
  have hlats : latsOf sensors ≠ [] := by
    intro hnil
    exact hne (List.map_eq_nil_iff.mp hnil)
  have hlons : lonsOf sensors ≠ [] := by
    intro hnil
    exact hne (List.map_eq_nil_iff.mp hnil)
  have hpad : (0 : ℚ) < max (max_range sensors * (2 / 100)) (1 / 1000) :=
    lt_of_lt_of_le (by norm_num) (le_max_right _ _)
  refine ⟨?_, ?_, ?_⟩
  · rw [create_interpolated_grid, if_neg (by omega)]
    simp only [Option.map_some']
    simp [min_lat_p, max_lat_p, min_lon_p, max_lon_p, gridPadding]
  · have := pyMin_le_pyMax hlats
    linarith
  · have := pyMin_le_pyMax hlons
    linarith

/-- Witness for C6 at a concrete two-sensor input. -/
theorem grid_bounds_padded_minmax_witness :
    pyMin (latsOf demoSensors) -
        max (max_range demoSensors * (2 / 100)) (1 / 1000)
      < pyMax (latsOf demoSensors) +
        max (max_range demoSensors * (2 / 100)) (1 / 1000) :=
  (grid_bounds_padded_minmax (fun _ => 1) demoSensors
    (by norm_num [demoSensors])).2.1

/-- C2 (amended): the grid is square, with side length chosen by the span
of the UNPADDED bounding box (the larger of the readings' lat-span and
lon-span): span < 1 degree gives 60, span < 5 degrees gives 40, else 30. -/
theorem grid_resolution_from_unpadded_span (cosDeg : ℚ → ℚ)
    (sensors : List SensorPoint) (h : 2 ≤ sensors.length) :
    (create_interpolated_grid cosDeg sensors).map InterpolatedGrid.grid_size =
      some (if max_range sensors < 1 then 60
              else if max_range sensors < 5 then 40 else 30,
            if max_range sensors < 1 then 60
              else if max_range sensors < 5 then 40 else 30) := by
  rw [create_interpolated_grid, if_neg (by omega)]
  simp only [Option.map_some']
  rw [grid_res]

/-- Witness for C2's amended theorem at a concrete two-sensor input. -/
theorem grid_resolution_from_unpadded_span_witness :
    (create_interpolated_grid (fun _ => 1) demoSensors).map
        InterpolatedGrid.grid_size =
      some (if max_range demoSensors < 1 then 60
              else if max_range demoSensors < 5 then 40 else 30,
            if max_range demoSensors < 1 then 60
              else if max_range demoSensors < 5 then 40 else 30) :=
  grid_resolution_from_unpadded_span (fun _ => 1) demoSensors
    (by norm_num [demoSensors])

/-- Two sensors whose unpadded span is 0.999 degrees but whose padded span
is 1.03896 degrees: the code picks 60x60 from the unpadded span, while the
claim's padded-span rule would pick 40x40. -/
def spanSensors : List SensorPoint := [⟨0, 0, 50⟩, ⟨999 / 1000, 0, 50⟩]

lemma spanSensors_max_range : max_range spanSensors = 999 / 1000 := by
  norm_num [max_range, latsOf, lonsOf, spanSensors, pyMin, pyMax, max_def,
    min_def]

/-- Counterexample to C2 as stated: for `spanSensors` the produced grid is
60x60, but the claim's rule applied to the padded span yields 40x40. -/
theorem grid_resolution_claim_counterexample :
    (create_interpolated_grid (fun _ => 1) spanSensors).map
        InterpolatedGrid.grid_size ≠
      some (grid_res_claim (paddedSpan spanSensors),
            grid_res_claim (paddedSpan spanSensors)) := by
  have hps : paddedSpan spanSensors = 25974 / 25000 := by
    unfold paddedSpan min_lat_p max_lat_p min_lon_p max_lon_p gridPadding
    rw [spanSensors_max_range]
    norm_num [latsOf, lonsOf, spanSensors, pyMin, pyMax, min_def, max_def]
  have hclaim : grid_res_claim (paddedSpan spanSensors) = 40 := by
    rw [grid_res_claim, hps]; norm_num
  have hres : grid_res spanSensors = 60 := by
    rw [grid_res, spanSensors_max_range]; norm_num
  rw [create_interpolated_grid, if_neg (by simp [spanSensors])]
  simp only [Option.map_some']
  rw [hclaim]
  simp only [hres]
  simp

/-- Witness for C1 at concrete inputs. -/
theorem idw_cell_value_matches_reference_witness :
    ((create_interpolated_grid (fun _ => 1) demoSensors).map
        InterpolatedGrid.values = some (gridValuesSpec (fun _ => 1) demoSensors))
    ∧ (cellCompute (fun _ => 1) 0 (1 / 2) demoSensors).1 = 60 :=
  ⟨idw_cell_value_matches_reference.2.1 (fun _ => 1) demoSensors
      (by norm_num [demoSensors]),
    idw_cell_value_matches_reference.2.2 (fun _ => 1) rfl⟩

/-- Counterexample to C3 as stated: with `last_recompute_time = 0`,
`now = 2` and `recompute_interval = 2`, exactly the claimed threshold is
reached (`now - last ≥ interval`), yet the code does not fire: the source
compares with a strict `>`. -/
theorem sched_at_least_claim_counterexample :
    ¬(((sched_step 0 2 2).1 = true) ↔ ((2 : ℚ) - 0 ≥ 2)) := by
  norm_num [sched_step]

/-- C3 (amended): an accepted ingestion event at time `now` triggers a
recompute if and only if `now - last_recompute_time` STRICTLY exceeds
`recompute_interval`; a trigger resets `last_recompute_time` to `now`.
With `interval = 2`, initial `last = 0` and wall-clock event times
`T, T+0.5, T+1, T+1.9, T+2.1` for `T = 10^9`, the recompute fires at the
first and the last event only. -/
theorem sched_fires_iff_strictly_elapsed :
    (∀ last now interval : ℚ,
      ((sched_step last now interval).1 = true ↔ now - last > interval)
      ∧ (sched_step last now interval).2 =
          if now - last > interval then now else last)
    ∧ sched_run 2 0 [1000000000, 1000000000 + 1 / 2, 1000000000 + 1,
        1000000000 + 19 / 10, 1000000000 + 21 / 10]
      = [true, false, false, false, true] := by
  constructor
  · intro last now interval
    constructor
    · unfold sched_step
      split_ifs with hlt
      · simpa using hlt
      · simpa using hlt
    · unfold sched_step
      split_ifs <;> rfl
  · norm_num [sched_run, sched_step]

/-- Witness for C3's amended theorem at a concrete step. -/
theorem sched_fires_iff_strictly_elapsed_witness :
    ((sched_step 0 (21 / 10) 2).1 = true ↔ (21 : ℚ) / 10 - 0 > 2) :=
  (sched_fires_iff_strictly_elapsed.1 0 (21 / 10) 2).1

/-- A sample stored sensor entry. -/
def demoEntry : StoredReading :=
  { device_id := "esp32-001", lat := 0, lon := 0, db := 50, timestamp := 0,
    received_at := 0, topic := "noise/esp32-001" }

/-- Counterexample to C4 as stated: a subscriber registering on an empty
store receives no message at all (`send_current_data_to_client` is guarded
by `if self.sensor_data:`), not an empty initial snapshot. -/
theorem empty_store_registration_counterexample :
    registration_messages [] ≠ [BrokerMessage.sensor_snapshot []] := by
  simp [registration_messages, send_current_data_to_client]

/-- C4 (amended): a newly registered subscriber receives the full snapshot
of the current sensor set before any incremental message whenever sensor
data exists; a subscriber registering when no sensor data exists receives
no initial snapshot message at all. -/
theorem subscriber_snapshot_before_incrementals :
    (∀ (store : SensorStore) (incr : List BrokerMessage), store ≠ [] →
      messages_to_new_subscriber store incr =
        BrokerMessage.sensor_snapshot (store.map Prod.snd) :: incr)
    ∧ ∀ incr : List BrokerMessage, messages_to_new_subscriber [] incr = incr
    := by
  constructor
  · intro store incr hne
    cases store with
    | nil => exact absurd rfl hne
    | cons e rest =>
      simp [messages_to_new_subscriber, registration_messages,
        send_current_data_to_client]
  · intro incr
    simp [messages_to_new_subscriber, registration_messages,
      send_current_data_to_client]

/-- Witness for C4's amended theorem at a concrete store. -/
theorem subscriber_snapshot_before_incrementals_witness :
    messages_to_new_subscriber [("esp32-001", demoEntry)] [] =
      [BrokerMessage.sensor_snapshot [demoEntry]] := by
  have h := subscriber_snapshot_before_incrementals.1
    [("esp32-001", demoEntry)] [] (by simp)
  simpa using h

/-- A stored sensor entry that is stale at time `now_ms = 1000000`. -/
def staleEntry : StoredReading :=
  { device_id := "esp32-002", lat := 0, lon := 0, db := 55, timestamp := 0,
    received_at := 0, topic := "noise/esp32-002" }

/-- Counterexample to C7 as stated: at `now_ms = 1000000`,
`maxAge = 300 s`, one stored entry of age 1000 s is removed, but the
operation returns `None`, not the removed count 1. -/
theorem evict_returns_no_count_counterexample :
    (cleanup_old_data 1000000 300 [("esp32-002", staleEntry)]).1 = []
    ∧ (cleanup_old_data 1000000 300 [("esp32-002", staleEntry)]).2 ≠ some 1
    := by
  have hage : ((1000000 : ℚ) - staleEntry.received_at) / 1000 > 300 := by
    norm_num [staleEntry]
  constructor
  · simp [cleanup_old_data, List.filter, hage]
  · simp [cleanup_old_data]

/-- C7 (amended): after `EvictExpired(maxAge)` no remaining entry has age
`(now - received_at)/1000` exceeding `maxAge`; every entry of age at most
`maxAge` remains in the store unchanged (and in its original order); the
operation returns no removed count (the Python function returns `None`). -/
theorem evict_expired_spec (now_ms maxAge : ℚ) (store : SensorStore) :
    (∀ e ∈ (cleanup_old_data now_ms maxAge store).1,
        ¬((now_ms - e.2.received_at) / 1000 > maxAge))
    ∧ (∀ e ∈ store, (now_ms - e.2.received_at) / 1000 ≤ maxAge →
        e ∈ (cleanup_old_data now_ms maxAge store).1)
    ∧ (cleanup_old_data now_ms maxAge store).1.Sublist store
    ∧ (cleanup_old_data now_ms maxAge store).2 = none := by
  unfold cleanup_old_data
  refine ⟨?_, ?_, List.filter_sublist store, rfl⟩
  · intro e he
    have h := (List.mem_filter.mp he).2
    simpa using h
  · intro e he hage
    apply List.mem_filter.mpr
    refine ⟨he, ?_⟩
    simp [not_lt.mpr hage]

/-- Witness for C7's amended theorem: a fresh entry (age 100 s vs
`maxAge = 300 s`) survives the sweep. -/
theorem evict_expired_spec_witness :
    ("esp32-001", demoEntry) ∈
      (cleanup_old_data 100000 300 [("esp32-001", demoEntry)]).1 :=
  (evict_expired_spec 100000 300 [("esp32-001", demoEntry)]).2.1
    ("esp32-001", demoEntry) (by simp) (by norm_num [demoEntry])

/-! ### Helper lemmas: broadcast fan-out -/

lemma broadcastLoop_fst (ok : ℕ → Bool) (l : List ℕ) :
    (broadcastLoop ok l).1 = l.filter ok := by
  induction l with
  | nil => rfl
  | cons c rest ih =>
    simp only [broadcastLoop]
    cases h : ok c
    · simp [h, ih, List.filter_cons]
    · simp [h, ih, List.filter_cons]

lemma broadcastLoop_snd (ok : ℕ → Bool) (l : List ℕ) :
    (broadcastLoop ok l).2 = l.filter (fun x => !ok x) := by
  induction l with
  | nil => rfl
  | cons c rest ih =>
    simp only [broadcastLoop]
    cases h : ok c
    · simp [h, ih, List.filter_cons]
    · simp [h, ih, List.filter_cons]

lemma broadcast_delivered_eq (clients : List ℕ) (ok : ℕ → Bool) :
    (broadcast_to_clients clients ok).1 = clients.filter ok := by
  unfold broadcast_to_clients
  exact broadcastLoop_fst ok clients

lemma broadcast_registry_eq (clients : List ℕ) (ok : ℕ → Bool) :
    (broadcast_to_clients clients ok).2 = clients.filter ok := by
  unfold broadcast_to_clients
  simp only [broadcastLoop_snd]
  apply List.filter_congr
  intro c hc
  cases h : ok c
  · have hmem : c ∈ clients.filter (fun x => !ok x) :=
      List.mem_filter.mpr ⟨hc, by simp [h]⟩
    have hcon : (clients.filter (fun x => !ok x)).contains c = true :=
      List.elem_iff.mpr hmem
    rw [hcon]
    rfl
  · have hmem : c ∉ clients.filter (fun x => !ok x) := by
      intro hmem
      have := (List.mem_filter.mp hmem).2
      simp [h] at this
    have hcon : (clients.filter (fun x => !ok x)).contains c = false := by
      rw [← Bool.not_eq_true]
      intro hcon
      exact hmem (List.elem_iff.mp hcon)
    rw [hcon]
    rfl

/-- C9: a subscriber whose send fails is dropped from the registry and is
not delivered to on the next publish, while every subscriber whose send
succeeds receives the message, stays registered, and receives the next
publish too (one failed delivery never skips the rest). -/
theorem failed_subscriber_removed_others_delivered
    (clients : List ℕ) (ok1 ok2 : ℕ → Bool) (c : ℕ) (hc : c ∈ clients) :
    (ok1 c = false →
      c ∉ (broadcast_to_clients clients ok1).2 ∧
      c ∉ (broadcast_to_clients (broadcast_to_clients clients ok1).2 ok2).1)
    ∧ (ok1 c = true →
      c ∈ (broadcast_to_clients clients ok1).1 ∧
      c ∈ (broadcast_to_clients clients ok1).2 ∧
      (ok2 c = true →
        c ∈ (broadcast_to_clients (broadcast_to_clients clients ok1).2 ok2).1))
    := by
  simp only [broadcast_delivered_eq, broadcast_registry_eq]
  constructor
  · intro hfail
    have hnot : c ∉ clients.filter ok1 := by
      intro hmem
      have := (List.mem_filter.mp hmem).2
      rw [hfail] at this
      exact Bool.false_ne_true this
    refine ⟨hnot, ?_⟩
    intro hmem
    exact hnot (List.mem_filter.mp hmem).1
  · intro hok1
    have hmem1 : c ∈ clients.filter ok1 := List.mem_filter.mpr ⟨hc, hok1⟩
    refine ⟨hmem1, hmem1, ?_⟩
    intro hok2
    exact List.mem_filter.mpr ⟨hmem1, hok2⟩

/-! ### Helper lemmas: the sensor store dictionary -/

lemma lookup_dictInsert_self {α : Type} (k : String) (v : α) :
    ∀ st : List (String × α), (dictInsert k v st).lookup k = some v := by
  intro st
  induction st with
  | nil =>
    rw [dictInsert, List.lookup_cons, beq_self_eq_true]
  | cons p rest ih =>
    obtain ⟨k', v'⟩ := p
    rw [dictInsert]
    by_cases h : k' = k
    · rw [if_pos h, List.lookup_cons, beq_self_eq_true]
    · rw [if_neg h, List.lookup_cons,
        beq_eq_false_iff_ne.mpr (fun he => h he.symm)]
      exact ih

lemma lookup_dictInsert_ne {α : Type} (k x : String) (v : α) (hx : x ≠ k) :
    ∀ st : List (String × α), (dictInsert k v st).lookup x = st.lookup x := by
  intro st
  induction st with
  | nil =>
    rw [dictInsert, List.lookup_cons, beq_eq_false_iff_ne.mpr hx]
  | cons p rest ih =>
    obtain ⟨k', v'⟩ := p
    rw [dictInsert]
    by_cases h : k' = k
    · rw [if_pos h, List.lookup_cons, beq_eq_false_iff_ne.mpr hx,
        List.lookup_cons, beq_eq_false_iff_ne.mpr (h ▸ hx)]
    · rw [if_neg h, List.lookup_cons, List.lookup_cons]
      by_cases hxk : x = k'
      · rw [beq_iff_eq.mpr hxk]
      · rw [beq_eq_false_iff_ne.mpr hxk]
        exact ih

lemma mem_keys_dictInsert {α : Type} (k x : String) (v : α) :
    ∀ st : List (String × α),
      (x ∈ (dictInsert k v st).map Prod.fst ↔
        x = k ∨ x ∈ st.map Prod.fst) := by
  intro st
  induction st with
  | nil => simp [dictInsert]
  | cons p rest ih =>
    obtain ⟨k', v'⟩ := p
    rw [dictInsert]
    by_cases h : k' = k
    · subst h
      simp [List.mem_cons]
    · rw [if_neg h]
      simp only [List.map_cons, List.mem_cons, ih]
      tauto

lemma nodup_keys_dictInsert {α : Type} (k : String) (v : α) :
    ∀ st : List (String × α), (st.map Prod.fst).Nodup →
      ((dictInsert k v st).map Prod.fst).Nodup := by
  intro st
  induction st with
  | nil => intro _; simp [dictInsert]
  | cons p rest ih =>
    obtain ⟨k', v'⟩ := p
    intro hnd
    rw [List.map_cons, List.nodup_cons] at hnd
    rw [dictInsert]
    by_cases h : k' = k
    · subst h
      rw [if_pos rfl, List.map_cons, List.nodup_cons]
      exact hnd
    · rw [if_neg h, List.map_cons, List.nodup_cons]
      refine ⟨?_, ih hnd.2⟩
      intro hmem
      rcases (mem_keys_dictInsert k k' v rest).mp hmem with he | he
      · exact h he
      · exact hnd.1 he

lemma nodup_keys_insert_all
    (events : List (SensorPayload × String × ℚ)) :
    ∀ st : SensorStore, (st.map Prod.fst).Nodup →
      ((insert_all st events).map Prod.fst).Nodup := by
  induction events with
  | nil => intro st h; exact h
  | cons e es ih =>
    intro st h
    rw [insert_all, List.foldl_cons]
    exact ih _ (nodup_keys_dictInsert _ _ _ h)

lemma mem_keys_insert_all (X : String)
    (events : List (SensorPayload × String × ℚ)) :
    ∀ st : SensorStore,
      (X ∈ (insert_all st events).map Prod.fst ↔
        X ∈ st.map Prod.fst ∨ ∃ e ∈ events, e.1.device_id = X) := by
  induction events with
  | nil => intro st; simp [insert_all]
  | cons e es ih =>
    intro st
    rw [insert_all, List.foldl_cons]
    rw [show List.foldl
        (fun st e => handle_sensor_data_store st e.1 e.2.1 e.2.2)
        (handle_sensor_data_store st e.1 e.2.1 e.2.2) es =
      insert_all (handle_sensor_data_store st e.1 e.2.1 e.2.2) es from rfl]
    rw [ih]
    unfold handle_sensor_data_store
    rw [mem_keys_dictInsert]
    simp only [List.mem_cons]
    constructor
    · rintro (⟨h | h⟩ | ⟨e', he', hid⟩)
      · exact Or.inr ⟨e, Or.inl rfl, h.symm⟩
      · exact Or.inl h
      · exact Or.inr ⟨e', Or.inr he', hid⟩
    · rintro (h | ⟨e', he' | he', hid⟩)
      · exact Or.inl (Or.inr h)
      · exact Or.inl (Or.inl (he' ▸ hid.symm))
      · exact Or.inr ⟨e', he', hid⟩

/-- C8: after inserting any sequence of readings starting from an empty
store, the store's entry under key X is exactly the one built from the
most recent reading for device X, and — whenever some reading for X was
inserted — the snapshot contains exactly one entry keyed by X. -/
theorem snapshot_single_latest_entry
    (events : List (SensorPayload × String × ℚ)) (X : String) :
    ((insert_all [] events).lookup X =
      (events.reverse.find? (fun e => e.1.device_id == X)).map
        (fun e => storeReading e.1 e.2.1 e.2.2))
    ∧ ((∃ e ∈ events, e.1.device_id = X) →
      ((insert_all [] events).map Prod.fst).count X = 1) := by
  constructor
  · induction events using List.reverseRecOn with
    | nil => simp [insert_all]
    | append_singleton es e ih =>
      rw [insert_all, List.foldl_append]
      rw [show List.foldl
          (fun st e => handle_sensor_data_store st e.1 e.2.1 e.2.2)
          ([] : SensorStore) es = insert_all [] es from rfl]
      rw [List.foldl_cons, List.foldl_nil]
      unfold handle_sensor_data_store
      rw [List.reverse_append, List.reverse_singleton, List.singleton_append]
      by_cases h : e.1.device_id = X
      · rw [h, lookup_dictInsert_self,
          List.find?_cons_of_pos _ (by simp [h])]
        rfl
      · rw [lookup_dictInsert_ne _ _ _ (fun he => h he.symm),
          List.find?_cons_of_neg _ (by simp [h])]
        exact ih
  · intro hex
    apply List.count_eq_one_of_mem
    · exact nodup_keys_insert_all events [] (by simp)
    · rw [mem_keys_insert_all]
      exact Or.inr hex

/-- A second reading for the same device as `demoPayload1`. -/
def demoPayload1 : SensorPayload :=
  { device_id := "esp32-001", lat := 0, lon := 0, db := 40, timestamp := 1 }

/-- The later reading for device `esp32-001`. -/
def demoPayload2 : SensorPayload :=
  { device_id := "esp32-001", lat := 0, lon := 0, db := 50, timestamp := 2 }

/-- Witness for C8: two successive readings for the same device leave
exactly one entry for it. -/
theorem snapshot_single_latest_entry_witness :
    ((insert_all [] [(demoPayload1, "noise/esp32-001", 1000),
        (demoPayload2, "noise/esp32-001", 2000)]).map
      Prod.fst).count "esp32-001" = 1 :=
  (snapshot_single_latest_entry
    [(demoPayload1, "noise/esp32-001", 1000),
      (demoPayload2, "noise/esp32-001", 2000)] "esp32-001").2
    ⟨(demoPayload1, "noise/esp32-001", 1000), by simp, rfl⟩

/-! ### Helper lemmas: range of the interpolated values -/

lemma cellValue_bounds (cosDeg : ℚ → ℚ) (lat lon : ℚ)
    {sensors : List SensorPoint} (h : sensors ≠ []) :
    pyMin (sensors.map (fun s => s.db)) ≤
        (cellCompute cosDeg lat lon sensors).1
      ∧ (cellCompute cosDeg lat lon sensors).1 ≤
        pyMax (sensors.map (fun s => s.db)) := by
  have hdbs : sensors.map (fun s => s.db) ≠ [] :=
    fun hh => h (List.map_eq_nil_iff.mp hh)
  rw [cellCompute_fst_eq_spec]
  unfold cellValueSpec
  cases hfind : sensors.find?
      (fun s => decide (distance_sq cosDeg lat lon s = 0)) with
  | some s =>
    have hs : s ∈ sensors := List.mem_of_find?_eq_some hfind
    have hmem : s.db ∈ sensors.map (fun s => s.db) :=
      List.mem_map_of_mem _ hs
    exact ⟨pyMin_le hdbs _ hmem, le_pyMax hdbs _ hmem⟩
  | none =>
    have hWpos : 0 < (sensors.map (idwWeight cosDeg lat lon)).sum :=
      weightSum_pos cosDeg lat lon h
    constructor
    · rw [le_div_iff₀ hWpos, ← List.sum_map_mul_left]
      apply List.sum_le_sum
      intro s hs
      exact mul_le_mul_of_nonneg_right
        (pyMin_le hdbs _ (List.mem_map_of_mem _ hs))
        (le_of_lt (idwWeight_pos cosDeg lat lon s))
    · rw [div_le_iff₀ hWpos, ← List.sum_map_mul_left]
      apply List.sum_le_sum
      intro s hs
      exact mul_le_mul_of_nonneg_right
        (le_pyMax hdbs _ (List.mem_map_of_mem _ hs))
        (le_of_lt (idwWeight_pos cosDeg lat lon s))

lemma mem_gridCells (cosDeg : ℚ → ℚ) (sensors : List SensorPoint)
    (c : ℚ × ℚ) (hm : c ∈ gridCells cosDeg sensors) :
    ∃ i j : ℕ,
      c = cellCompute cosDeg (cellLat sensors i) (cellLon sensors j) sensors
    := by
  unfold gridCells at hm
  rcases List.mem_flatMap.mp hm with ⟨i, _, hmi⟩
  rcases List.mem_map.mp hmi with ⟨j, _, hc⟩
  exact ⟨i, j, hc.symm⟩

lemma grid_res_pos (sensors : List SensorPoint) : 0 < grid_res sensors := by
  unfold grid_res
  split_ifs <;> norm_num

lemma gridCells_length (cosDeg : ℚ → ℚ) (sensors : List SensorPoint) :
    (gridCells cosDeg sensors).length =
      grid_res sensors * grid_res sensors := by
  unfold gridCells
  rw [List.length_flatMap]
  have hrep :
      List.map (List.length ∘ fun i => (List.range (grid_res sensors)).map
        (fun j => cellCompute cosDeg (cellLat sensors i)
          (cellLon sensors j) sensors)) (List.range (grid_res sensors))
      = List.replicate (grid_res sensors) (grid_res sensors) := by
    apply List.eq_replicate_iff.mpr
    constructor
    · rw [List.length_map, List.length_range]
    · intro b hb
      rcases List.mem_map.mp hb with ⟨i, _, hbi⟩
      rw [← hbi]
      simp
  rw [hrep, List.sum_replicate, smul_eq_mul]

lemma gridCells_ne_nil (cosDeg : ℚ → ℚ) (sensors : List SensorPoint) :
    gridCells cosDeg sensors ≠ [] := by
  apply List.length_pos.mp
  rw [gridCells_length]
  have := grid_res_pos sensors
  positivity

lemma foldl_min_db_bounds {dmin dmax : ℚ} :
    ∀ (cells : List (ℚ × ℚ)) (acc : WithTop ℚ),
      (∀ c ∈ cells, 0 < c.2 ∧ dmin ≤ c.1 ∧ c.1 ≤ dmax) →
      ((acc = ⊤ ∧ cells ≠ []) ∨ (∃ a : ℚ, acc = ↑a ∧ dmin ≤ a ∧ a ≤ dmax)) →
      ∃ m : ℚ,
        cells.foldl (fun m c => if c.2 > 0 then min m (↑c.1) else m) acc = ↑m
        ∧ dmin ≤ m ∧ m ≤ dmax := by
  intro cells
  induction cells with
  | nil =>
    intro acc _ hacc
    rcases hacc with ⟨_, hne⟩ | ⟨a, ha, h1, h2⟩
    · exact absurd rfl hne
    · exact ⟨a, by rw [List.foldl_nil]; exact ha, h1, h2⟩
  | cons c rest ih =>
    intro acc hall hacc
    have hc := hall c (List.mem_cons_self c rest)
    rw [List.foldl_cons, if_pos hc.1]
    have hall' : ∀ x ∈ rest, 0 < x.2 ∧ dmin ≤ x.1 ∧ x.1 ≤ dmax :=
      fun x hx => hall x (List.mem_cons_of_mem c hx)
    rcases hacc with ⟨hteq, _⟩ | ⟨a, ha, h1, h2⟩
    · rw [hteq, min_eq_right le_top]
      exact ih _ hall' (Or.inr ⟨c.1, rfl, hc.2.1, hc.2.2⟩)
    · rw [ha, ← WithTop.coe_min]
      exact ih _ hall' (Or.inr ⟨min a c.1, rfl, le_min h1 hc.2.1,
        le_trans (min_le_right a c.1) hc.2.2⟩)

lemma foldl_max_db_bounds {dmin dmax : ℚ} :
    ∀ (cells : List (ℚ × ℚ)) (acc : WithBot ℚ),
      (∀ c ∈ cells, 0 < c.2 ∧ dmin ≤ c.1 ∧ c.1 ≤ dmax) →
      ((acc = ⊥ ∧ cells ≠ []) ∨ (∃ a : ℚ, acc = ↑a ∧ dmin ≤ a ∧ a ≤ dmax)) →
      ∃ M : ℚ,
        cells.foldl (fun m c => if c.2 > 0 then max m (↑c.1) else m) acc = ↑M
        ∧ dmin ≤ M ∧ M ≤ dmax := by
  intro cells
  induction cells with
  | nil =>
    intro acc _ hacc
    rcases hacc with ⟨_, hne⟩ | ⟨a, ha, h1, h2⟩
    · exact absurd rfl hne
    · exact ⟨a, by rw [List.foldl_nil]; exact ha, h1, h2⟩
  | cons c rest ih =>
    intro acc hall hacc
    have hc := hall c (List.mem_cons_self c rest)
    rw [List.foldl_cons, if_pos hc.1]
    have hall' : ∀ x ∈ rest, 0 < x.2 ∧ dmin ≤ x.1 ∧ x.1 ≤ dmax :=
      fun x hx => hall x (List.mem_cons_of_mem c hx)
    rcases hacc with ⟨hbeq, _⟩ | ⟨a, ha, h1, h2⟩
    · rw [hbeq, max_eq_right bot_le]
      exact ih _ hall' (Or.inr ⟨c.1, rfl, hc.2.1, hc.2.2⟩)
    · rw [ha, ← WithBot.coe_max]
      exact ih _ hall' (Or.inr ⟨max a c.1, rfl,
        le_trans h1 (le_max_left a c.1), max_le h2 hc.2.2⟩)

/-- C10: every produced grid value lies between the minimum and the
maximum sensor `level_db`; every cell's final weight sum is strictly
positive (the fallback `values.append(0)` branch is never taken); and the
reported `min_db` and `max_db` are finite rationals inside the sensors'
level range. -/
theorem grid_values_within_sensor_range (cosDeg : ℚ → ℚ)
    (sensors : List SensorPoint) (h : 2 ≤ sensors.length) :
    (∀ v ∈ ((create_interpolated_grid cosDeg sensors).map
        InterpolatedGrid.values).getD [],
      pyMin (sensors.map (fun s => s.db)) ≤ v
        ∧ v ≤ pyMax (sensors.map (fun s => s.db)))
    ∧ (∀ c ∈ gridCells cosDeg sensors, 0 < c.2)
    ∧ (∃ m : ℚ, (create_interpolated_grid cosDeg sensors).map
        InterpolatedGrid.min_db = some (↑m : WithTop ℚ)
        ∧ pyMin (sensors.map (fun s => s.db)) ≤ m
        ∧ m ≤ pyMax (sensors.map (fun s => s.db)))
    ∧ (∃ M : ℚ, (create_interpolated_grid cosDeg sensors).map
        InterpolatedGrid.max_db = some (↑M : WithBot ℚ)
        ∧ pyMin (sensors.map (fun s => s.db)) ≤ M
        ∧ M ≤ pyMax (sensors.map (fun s => s.db))) := by
  have hne : sensors ≠ [] := by
    intro hnil; rw [hnil] at h; simp at h
  have hcells : ∀ c ∈ gridCells cosDeg sensors,
      0 < c.2 ∧ pyMin (sensors.map (fun s => s.db)) ≤ c.1
        ∧ c.1 ≤ pyMax (sensors.map (fun s => s.db)) := by
    intro c hc
    rcases mem_gridCells cosDeg sensors c hc with ⟨i, j, rfl⟩
    exact ⟨cellCompute_weight_pos cosDeg _ _ hne,
      (cellValue_bounds cosDeg _ _ hne).1, (cellValue_bounds cosDeg _ _ hne).2⟩
  refine ⟨?_, fun c hc => (hcells c hc).1, ?_, ?_⟩
  · rw [create_interpolated_grid, if_neg (by omega)]
    simp only [Option.map_some', Option.getD_some]
    intro v hv
    rcases List.mem_map.mp hv with ⟨c, hc, rfl⟩
    exact ⟨(hcells c hc).2.1, (hcells c hc).2.2⟩
  · rw [create_interpolated_grid, if_neg (by omega)]
    simp only [Option.map_some']
    rcases foldl_min_db_bounds (gridCells cosDeg sensors) ⊤ hcells
        (Or.inl ⟨rfl, gridCells_ne_nil cosDeg sensors⟩) with ⟨m, hm, hb1, hb2⟩
    exact ⟨m, by rw [hm], hb1, hb2⟩
  · rw [create_interpolated_grid, if_neg (by omega)]
    simp only [Option.map_some']
    rcases foldl_max_db_bounds (gridCells cosDeg sensors) ⊥ hcells
        (Or.inl ⟨rfl, gridCells_ne_nil cosDeg sensors⟩) with ⟨M, hM, hb1, hb2⟩
    exact ⟨M, by rw [hM], hb1, hb2⟩

/-! ### Helper lemmas: permutation invariance -/

lemma cellCompute_perm (cosDeg : ℚ → ℚ) (lat lon : ℚ)
    {l l' : List SensorPoint} (hp : l.Perm l')
    (hz : ∀ s ∈ l, ∀ t ∈ l, distance_sq cosDeg lat lon s = 0 →
      distance_sq cosDeg lat lon t = 0 → s.db = t.db) :
    cellCompute cosDeg lat lon l = cellCompute cosDeg lat lon l' := by
  unfold cellCompute
  rw [idwLoop_characterization, idwLoop_characterization]
  by_cases hex : ∃ s ∈ l, distance_sq cosDeg lat lon s = 0
  · have hsome1 : (l.find?
        (fun s => decide (distance_sq cosDeg lat lon s = 0))).isSome := by
      rw [List.find?_isSome]
      rcases hex with ⟨s, hs, hd⟩
      exact ⟨s, hs, by simp [hd]⟩
    have hsome2 : (l'.find?
        (fun s => decide (distance_sq cosDeg lat lon s = 0))).isSome := by
      rw [List.find?_isSome]
      rcases hex with ⟨s, hs, hd⟩
      exact ⟨s, hp.mem_iff.mp hs, by simp [hd]⟩
    rcases Option.isSome_iff_exists.mp hsome1 with ⟨s1, hf1⟩
    rcases Option.isSome_iff_exists.mp hsome2 with ⟨s2, hf2⟩
    rw [hf1, hf2]
    have hd1 : distance_sq cosDeg lat lon s1 = 0 := by
      have hx := List.find?_some hf1
      simpa using hx
    have hd2 : distance_sq cosDeg lat lon s2 = 0 := by
      have hx := List.find?_some hf2
      simpa using hx
    have hdb : s1.db = s2.db :=
      hz s1 (List.mem_of_find?_eq_some hf1)
        s2 (hp.mem_iff.mpr (List.mem_of_find?_eq_some hf2)) hd1 hd2
    simp [hdb]
  · have hn1 : l.find?
        (fun s => decide (distance_sq cosDeg lat lon s = 0)) = none :=
      List.find?_eq_none.mpr
        (fun x hx hpx => hex ⟨x, hx, of_decide_eq_true hpx⟩)
    have hn2 : l'.find?
        (fun s => decide (distance_sq cosDeg lat lon s = 0)) = none :=
      List.find?_eq_none.mpr
        (fun x hx hpx => hex ⟨x, hp.mem_iff.mpr hx, of_decide_eq_true hpx⟩)
    rw [hn1, hn2]
    rw [((hp.map (fun s => s.db * idwWeight cosDeg lat lon s)).sum_eq :
      (l.map _).sum = _)]
    rw [((hp.map (idwWeight cosDeg lat lon)).sum_eq : (l.map _).sum = _)]

/-- C5 (amended): `create_interpolated_grid` is invariant under
permutation of its input list provided any two readings at zero scaled
distance from a common point have equal `level_db` (in particular whenever
no two readings share a location); with two coincident readings of
different levels the loop's short-circuit picks whichever comes first, and
reordering can change the output. -/
theorem compute_permutation_invariant (cosDeg : ℚ → ℚ)
    {l l' : List SensorPoint} (hp : l.Perm l')
    (hz : ∀ (lat lon : ℚ), ∀ s ∈ l, ∀ t ∈ l,
      distance_sq cosDeg lat lon s = 0 →
      distance_sq cosDeg lat lon t = 0 → s.db = t.db) :
    create_interpolated_grid cosDeg l = create_interpolated_grid cosDeg l'
    := by
  have hlatperm : (latsOf l).Perm (latsOf l') := by
    unfold latsOf; exact hp.map _
  have hlonperm : (lonsOf l).Perm (lonsOf l') := by
    unfold lonsOf; exact hp.map _
  have hminlat : pyMin (latsOf l) = pyMin (latsOf l') := pyMin_perm hlatperm
  have hmaxlat : pyMax (latsOf l) = pyMax (latsOf l') := pyMax_perm hlatperm
  have hminlon : pyMin (lonsOf l) = pyMin (lonsOf l') := pyMin_perm hlonperm
  have hmaxlon : pyMax (lonsOf l) = pyMax (lonsOf l') := pyMax_perm hlonperm
  have hmr : max_range l = max_range l' := by
    unfold max_range
    rw [hminlat, hmaxlat, hminlon, hmaxlon]
  have hpad : gridPadding l = gridPadding l' := by
    unfold gridPadding; rw [hmr]
  have hres : grid_res l = grid_res l' := by
    unfold grid_res; rw [hmr]
  have hminlatp : min_lat_p l = min_lat_p l' := by
    unfold min_lat_p; rw [hminlat, hpad]
  have hmaxlatp : max_lat_p l = max_lat_p l' := by
    unfold max_lat_p; rw [hmaxlat, hpad]
  have hminlonp : min_lon_p l = min_lon_p l' := by
    unfold min_lon_p; rw [hminlon, hpad]
  have hmaxlonp : max_lon_p l = max_lon_p l' := by
    unfold max_lon_p; rw [hmaxlon, hpad]
  have hlatstep : lat_step l = lat_step l' := by
    unfold lat_step; rw [hmaxlatp, hminlatp, hres]
  have hlonstep : lon_step l = lon_step l' := by
    unfold lon_step; rw [hmaxlonp, hminlonp, hres]
  have hcellLat : ∀ i : ℕ, cellLat l i = cellLat l' i := by
    intro i; unfold cellLat; rw [hmaxlatp, hlatstep]
  have hcellLon : ∀ j : ℕ, cellLon l j = cellLon l' j := by
    intro j; unfold cellLon; rw [hminlonp, hlonstep]
  have hcells : gridCells cosDeg l = gridCells cosDeg l' := by
    unfold gridCells
    rw [hres]
    congr 1
    funext i
    congr 1
    funext j
    rw [hcellLat i, hcellLon j]
    exact cellCompute_perm cosDeg _ _ hp (hz _ _)
  unfold create_interpolated_grid
  rw [hp.length_eq, hcells, hminlatp, hmaxlatp, hminlonp, hmaxlonp, hres]

lemma sum_sq_eq_zero {a b : ℚ} (h : a ^ 2 + b ^ 2 = 0) : a = 0 ∧ b = 0 := by
  have ha : a ^ 2 = 0 :=
    le_antisymm (by nlinarith [sq_nonneg b]) (sq_nonneg a)
  have hb : b ^ 2 = 0 :=
    le_antisymm (by nlinarith [sq_nonneg a]) (sq_nonneg b)
  exact ⟨(pow_eq_zero_iff (by norm_num : (2 : ℕ) ≠ 0)).mp ha,
    (pow_eq_zero_iff (by norm_num : (2 : ℕ) ≠ 0)).mp hb⟩

/-- A point of zero scaled distance with a unit cosine factor pins down
both coordinates. -/
lemma distance_sq_zero_coords {lat lon : ℚ} {u : SensorPoint}
    (hd : distance_sq (fun _ => 1) lat lon u = 0) :
    lat = u.lat ∧ lon = u.lon := by
  have hd' : (lat - u.lat) ^ 2 + ((lon - u.lon) * 1) ^ 2 = 0 := by
    simpa [distance_sq] using hd
  obtain ⟨h2, h3⟩ := sum_sq_eq_zero hd'
  have h3' : lon - u.lon = 0 := by simpa using h3
  constructor <;> linarith

/-- Witness for C5's amended theorem: reversing two sensors at distinct
locations leaves the grid unchanged. -/
theorem compute_permutation_invariant_witness :
    create_interpolated_grid (fun _ => 1) demoSensors =
      create_interpolated_grid (fun _ => 1) [⟨0, 1, 80⟩, ⟨0, 0, 40⟩] := by
  apply compute_permutation_invariant (fun _ => 1)
    (by unfold demoSensors; exact List.Perm.swap _ _ [])
  intro lat lon s hs t ht hds hdt
  have hsu := distance_sq_zero_coords hds
  have htu := distance_sq_zero_coords hdt
  simp only [demoSensors, List.mem_cons, List.not_mem_nil, or_false] at hs ht
  rcases hs with hs | hs <;> rcases ht with ht | ht <;> rw [hs] at hsu <;>
    rw [ht] at htu
  · rw [hs, ht]
  · exfalso
    have h1 : lon = 0 := by simpa using hsu.2
    have h2 : lon = 1 := by simpa using htu.2
    rw [h1] at h2
    norm_num at h2
  · exfalso
    have h1 : lon = 1 := by simpa using hsu.2
    have h2 : lon = 0 := by simpa using htu.2
    rw [h2] at h1
    norm_num at h1
  · rw [hs, ht]

/-! ### Helper lemmas: indexing into the row-major grid -/

lemma flatMap_range_getElem {β : Type} (res : ℕ) (g : ℕ → ℕ → β) :
    ∀ (L : List ℕ) (i j : ℕ), i < L.length → j < res →
      (L.flatMap fun a => (List.range res).map (g a))[i * res + j]? =
        L[i]?.map (fun a => g a j) := by
  intro L
  induction L with
  | nil => intro i j hi _; simp at hi
  | cons a L ih =>
    intro i j hi hj
    rw [List.flatMap_cons]
    cases i with
    | zero =>
      rw [Nat.zero_mul, Nat.zero_add]
      rw [List.getElem?_append_left
        (by rw [List.length_map, List.length_range]; exact hj)]
      rw [List.getElem?_map, List.getElem?_range hj]
      simp
    | succ i =>
      have hsm : (i + 1) * res = i * res + res := by ring
      have hsm' : i.succ * res = i * res + res := Nat.succ_mul i res
      have hlen : (List.map (g a) (List.range res)).length = res := by
        rw [List.length_map, List.length_range]
      rw [List.getElem?_append_right (by rw [hlen]; omega)]
      rw [hlen]
      have hidx : (i + 1) * res + j - res = i * res + j := by omega
      rw [hidx]
      rw [ih i j (by simpa using hi) hj]
      rw [List.getElem?_cons_succ]

lemma gridCells_getElem (cosDeg : ℚ → ℚ) (sensors : List SensorPoint)
    (i j : ℕ) (hi : i < grid_res sensors) (hj : j < grid_res sensors) :
    (gridCells cosDeg sensors)[i * grid_res sensors + j]? =
      some (cellCompute cosDeg (cellLat sensors i) (cellLon sensors j)
        sensors) := by
  unfold gridCells
  rw [flatMap_range_getElem (grid_res sensors) _ (List.range (grid_res sensors))
    i j (by rw [List.length_range]; exact hi) hj]
  rw [List.getElem?_range hi]
  rfl

/-- Three sensors, the first two coincident at `(0, 0)` with different
levels, the third placed so that `(0, 0)` is exactly the grid cell centre
of row 2, column 57. -/
def sensorsP : List SensorPoint :=
  [⟨0, 0, 40⟩, ⟨0, 0, 80⟩, ⟨-11 / 400, -11 / 400, 60⟩]

/-- `sensorsP` with its two coincident sensors transposed. -/
def sensorsQ : List SensorPoint :=
  [⟨0, 0, 80⟩, ⟨0, 0, 40⟩, ⟨-11 / 400, -11 / 400, 60⟩]

lemma sensorsP_max_range : max_range sensorsP = 11 / 400 := by
  norm_num [max_range, latsOf, lonsOf, sensorsP, pyMin, pyMax, min_def,
    max_def]

lemma sensorsQ_max_range : max_range sensorsQ = 11 / 400 := by
  norm_num [max_range, latsOf, lonsOf, sensorsQ, pyMin, pyMax, min_def,
    max_def]

lemma sensorsP_grid_res : grid_res sensorsP = 60 := by
  rw [grid_res, sensorsP_max_range]; norm_num

lemma sensorsQ_grid_res : grid_res sensorsQ = 60 := by
  rw [grid_res, sensorsQ_max_range]; norm_num

lemma sensorsP_cellLat : cellLat sensorsP 2 = 0 := by
  unfold cellLat lat_step max_lat_p min_lat_p gridPadding
  rw [sensorsP_max_range, sensorsP_grid_res]
  norm_num [latsOf, sensorsP, pyMin, pyMax, min_def, max_def]

lemma sensorsQ_cellLat : cellLat sensorsQ 2 = 0 := by
  unfold cellLat lat_step max_lat_p min_lat_p gridPadding
  rw [sensorsQ_max_range, sensorsQ_grid_res]
  norm_num [latsOf, sensorsQ, pyMin, pyMax, min_def, max_def]

lemma sensorsP_cellLon : cellLon sensorsP 57 = 0 := by
  unfold cellLon lon_step max_lon_p min_lon_p gridPadding
  rw [sensorsP_max_range, sensorsP_grid_res]
  norm_num [lonsOf, sensorsP, pyMin, pyMax, min_def, max_def]

lemma sensorsQ_cellLon : cellLon sensorsQ 57 = 0 := by
  unfold cellLon lon_step max_lon_p min_lon_p gridPadding
  rw [sensorsQ_max_range, sensorsQ_grid_res]
  norm_num [lonsOf, sensorsQ, pyMin, pyMax, min_def, max_def]

/-- Counterexample to C5 as stated: transposing two coincident sensors
with different levels changes the produced grid — at the cell centre that
coincides with them, the short-circuit takes whichever sensor comes first
(40 dB vs 80 dB). -/
theorem compute_permutation_counterexample :
    sensorsP.Perm sensorsQ
    ∧ create_interpolated_grid (fun _ => 1) sensorsP ≠
        create_interpolated_grid (fun _ => 1) sensorsQ := by
  constructor
  · unfold sensorsP sensorsQ
    exact List.Perm.swap _ _ _
  · intro heq
    have hP : (gridCells (fun _ => 1) sensorsP)[177]? = some (40, 1) := by
      have h := gridCells_getElem (fun _ => 1) sensorsP 2 57
        (by rw [sensorsP_grid_res]; norm_num)
        (by rw [sensorsP_grid_res]; norm_num)
      rw [sensorsP_grid_res, sensorsP_cellLat, sensorsP_cellLon] at h
      norm_num at h
      rw [h]
      have hcell : cellCompute (fun _ => 1) 0 0 sensorsP = (40, 1) := by
        norm_num [sensorsP, cellCompute, idwLoop, distance_sq]
      rw [hcell]
    have hQ : (gridCells (fun _ => 1) sensorsQ)[177]? = some (80, 1) := by
      have h := gridCells_getElem (fun _ => 1) sensorsQ 2 57
        (by rw [sensorsQ_grid_res]; norm_num)
        (by rw [sensorsQ_grid_res]; norm_num)
      rw [sensorsQ_grid_res, sensorsQ_cellLat, sensorsQ_cellLon] at h
      norm_num at h
      rw [h]
      have hcell : cellCompute (fun _ => 1) 0 0 sensorsQ = (80, 1) := by
        norm_num [sensorsQ, cellCompute, idwLoop, distance_sq]
      rw [hcell]
    have hv : (create_interpolated_grid (fun _ => 1) sensorsP).map
        InterpolatedGrid.values =
        (create_interpolated_grid (fun _ => 1) sensorsQ).map
          InterpolatedGrid.values := by rw [heq]
    rw [create_interpolated_grid, if_neg (by simp [sensorsP]),
      create_interpolated_grid, if_neg (by simp [sensorsQ])] at hv
    simp only [Option.map_some', Option.some.injEq] at hv
    have hg : ((gridCells (fun _ => 1) sensorsP).map Prod.fst)[177]? =
        ((gridCells (fun _ => 1) sensorsQ).map Prod.fst)[177]? := by
      rw [hv]
    rw [List.getElem?_map, List.getElem?_map, hP, hQ] at hg
    norm_num at hg

/-- Witness for C10 at the concrete two-sensor list. -/
theorem grid_values_within_sensor_range_witness :
    ∃ m : ℚ, (create_interpolated_grid (fun _ => 1) demoSensors).map
        InterpolatedGrid.min_db = some (↑m : WithTop ℚ)
      ∧ pyMin (demoSensors.map (fun s => s.db)) ≤ m
      ∧ m ≤ pyMax (demoSensors.map (fun s => s.db)) :=
  (grid_values_within_sensor_range (fun _ => 1) demoSensors
    (by norm_num [demoSensors])).2.2.1

/-- Witness for C9: among clients `[1, 2]`, client 1's send fails and
client 2's succeeds; 1 is dropped from the registry while 2 receives the
message. -/
theorem failed_subscriber_removed_others_delivered_witness :
    (1 ∉ (broadcast_to_clients [1, 2] (fun c => decide (c = 2))).2)
    ∧ 2 ∈ (broadcast_to_clients [1, 2] (fun c => decide (c = 2))).1 :=
  ⟨((failed_subscriber_removed_others_delivered [1, 2]
      (fun c => decide (c = 2)) (fun _ => true) 1 (by simp)).1 (by simp)).1,
    ((failed_subscriber_removed_others_delivered [1, 2]
      (fun c => decide (c = 2)) (fun _ => true) 2 (by simp)).2 (by simp)).1⟩
